import Mathlib

set_option autoImplicit false

/-
  Verification development for the Deriv websocket proxy.

  The repository holds two variants of the proxy server:
  - the main server (src/unnamed/part_000), modelled in namespace DerivProxy.Main:
    session store, per-connection metadata with pending trade requests,
    the POST /api/buy and GET /me endpoints, and the bidirectional bridge;
  - a simpler variant (src/backend/server.js), modelled in namespace DerivProxy.Alt:
    no buy flow, but an unsubscribe branch and an authorized event sent at
    upstream socket open.

  Machine-level JS values are embedded shallowly: JSON numbers that are only
  passed through (tick quotes) are opaque strings, balances and stakes are
  integers, JS object tables are association lists in insertion order, and
  JS truthiness of optional strings and numbers is made explicit.
-/

namespace DerivProxy

/-- Account information extracted from an upstream authorize success
    (loginid, currency, balance). -/
structure AccountInfo where
  loginid : String
  currency : String
  balance : Int
  deriving DecidableEq

/-- Parsed upstream (Deriv to bridge) messages, one constructor per branch the
    handler distinguishes: msg.authorize (success or with .error), msg.tick,
    msg.buy, msg.error, and anything else. The quote of a tick is an opaque
    numeric literal, never computed with. -/
inductive UpMsg where
  | authorizeOk (loginid currency : String) (balance : Int)
  | authorizeErr (message : String)
  | tick (symbol quote : String) (epoch : Nat)
  | buyResp (contract : String)
  | errorResp (message : String)
  | other
  deriving DecidableEq

/-- Client-to-server websocket messages. -/
inductive CMsg where
  | subscribe (symbol : String)
  | unsubscribe (symbol : String)
  | config
  deriving DecidableEq

/-- Server-to-client websocket messages. -/
inductive SMsg where
  | authorized (account : Option AccountInfo)
  | balance (balance : Int)
  | tick (symbol quote : String) (epoch : Nat)
  | subscribed (symbol : String)
  | unsubscribed (symbol : String)
  | buyResult (result : UpMsg)
  | error (message : String)
  deriving DecidableEq

/-- Requests the bridge writes to the upstream socket. -/
inductive UpReq where
  | authorize (token : String)
  | ticksSubscribe (symbol : String)
  | forget (target : String)
  | buy (price : Int) (symbol : String)
  deriving DecidableEq

/-- HTTP responses of the endpoints: okResult is res.json with ok true and a
    result (what a registered resolver produces), fail is res.status(s).json
    with ok false, meFail and meOk are the GET /me responses. -/
inductive HttpResp where
  | okResult (result : UpMsg)
  | fail (status : Nat) (message : String)
  | meFail
  | meOk (account : Option AccountInfo)
  deriving DecidableEq

/-- Observable effects of one handler invocation, in program order: a send to
    the browser client, a send to the upstream socket, the invocation of a
    registered pending resolver (which answers its HTTP caller with ok true
    and the given result), or a direct HTTP error response to a caller. -/
inductive Ev where
  | toClient (m : SMsg)
  | toUpstream (r : UpReq)
  | resolve (caller : Nat) (result : UpMsg)
  | httpError (caller status : Nat) (message : String)
  deriving DecidableEq

/-- An upstream websocket, reduced to the one property the code reads:
    whether readyState is OPEN. -/
structure Sock where
  isOpen : Bool
  deriving DecidableEq

/-- JS truthiness of an optional string (undefined, null and the empty string
    are falsy). -/
def truthyStr : Option String → Bool
  | none => false
  | some s => s != ""

/-- JS truthiness of an optional number (undefined and 0 are falsy). -/
def truthyInt : Option Int → Bool
  | none => false
  | some z => z != 0

/-- sessionTokenStore lookup: sessionId to token, insertion-ordered. -/
def storeLookup : List (String × String) → String → Option String
  | [], _ => none
  | (k, v) :: rest, s => if k = s then some v else storeLookup rest s

/-- The token captured by the connection handler closure:
    sid truthy ? sessionTokenStore[sid] : null. -/
def tokenCapture (store : List (String × String)) : Option String → Option String
  | none => none
  | some s => if s = "" then none else storeLookup store s

/-- JS Set.add: appends the element unless already present. -/
def insertSet (l : List String) (s : String) : List String :=
  if s ∈ l then l else l ++ [s]

/-- JS Set.delete: removes the element. -/
def removeSet (l : List String) (s : String) : List String :=
  l.filter (fun x => x != s)

/-- Assignment pendingRequests[reqId] = cb on a JS object: overwrites the
    entry in place when the key exists, appends otherwise. A resolver is
    identified by the HTTP caller it would answer. -/
def setPending : List (Nat × Nat) → Nat → Nat → List (Nat × Nat)
  | [], k, c => [(k, c)]
  | (k1, c1) :: rest, k, c =>
      if k1 = k then (k, c) :: rest else (k1, c1) :: setPending rest k c

/-- delete pendingRequests[reqId]. -/
def delPending (l : List (Nat × Nat)) (k : Nat) : List (Nat × Nat) :=
  l.filter (fun p => p.1 != k)

/-- Lookup of a pending resolver by request id. -/
def lookupPending : List (Nat × Nat) → Nat → Option Nat
  | [], _ => none
  | (k1, c1) :: rest, k => if k1 = k then some c1 else lookupPending rest k

/-- meta.derivWs && meta.derivWs.readyState === OPEN. -/
def sockOpen : Option Sock → Bool
  | none => false
  | some s => s.isOpen

namespace Main

/-- Per-connection metadata of the main server, plus the token captured by the
    connection closure (the code keeps it in a closure variable rather than on
    the meta object; no handler ever mutates it). -/
structure Meta where
  sessionId : Option String
  token : Option String
  derivWs : Option Sock
  subscribed : List String
  accountInfo : Option AccountInfo
  authorized : Bool
  pendingRequests : List (Nat × Nat)
  deriving DecidableEq

/-- Metadata as initialised at connection accept: derivWs freshly created and
    not yet open, empty subscription set, not authorized, no pending requests,
    token captured from the session store. -/
def initMeta (store : List (String × String)) (sid : Option String) : Meta :=
  { sessionId := sid, token := tokenCapture store sid,
    derivWs := some { isOpen := false }, subscribed := [],
    accountInfo := none, authorized := false, pendingRequests := [] }

/-- derivWs open handler: the socket becomes open; if the captured token is
    truthy, send an authorize request upstream (and nothing else). -/
def handleOpen (m : Meta) : Meta × List Ev :=
  let m1 : Meta := { m with derivWs := m.derivWs.map (fun _ => { isOpen := true }) }
  match m.token with
  | some t => if t = "" then (m1, []) else (m1, [Ev.toUpstream (UpReq.authorize t)])
  | none => (m1, [])

/-- derivWs close: readyState leaves OPEN; the handler itself only logs. -/
def handleUpClose (m : Meta) : Meta :=
  { m with derivWs := m.derivWs.map (fun _ => { isOpen := false }) }

/-- derivWs message handler of the main server: authorize branch (error or
    success), tick branch, and the buy-or-error branch which forwards a
    buy_result to the client and then resolves and clears every pending
    resolver. -/
def handleUpstream (m : Meta) (msg : UpMsg) : Meta × List Ev :=
  match msg with
  | UpMsg.authorizeOk l c b =>
      ({ m with authorized := true,
                accountInfo := some { loginid := l, currency := c, balance := b } },
       [Ev.toClient (SMsg.authorized (some { loginid := l, currency := c, balance := b })),
        Ev.toClient (SMsg.balance b)])
  | UpMsg.authorizeErr e => (m, [Ev.toClient (SMsg.error e)])
  | UpMsg.tick s q ep => (m, [Ev.toClient (SMsg.tick s q ep)])
  | UpMsg.buyResp c =>
      ({ m with pendingRequests := [] },
       Ev.toClient (SMsg.buyResult (UpMsg.buyResp c)) ::
         m.pendingRequests.map (fun p => Ev.resolve p.2 (UpMsg.buyResp c)))
  | UpMsg.errorResp e =>
      ({ m with pendingRequests := [] },
       Ev.toClient (SMsg.buyResult (UpMsg.errorResp e)) ::
         m.pendingRequests.map (fun p => Ev.resolve p.2 (UpMsg.errorResp e)))
  | UpMsg.other => (m, [])

/-- msg.buy || msg.error. -/
def isBuyOrError : UpMsg → Bool
  | UpMsg.buyResp _ => true
  | UpMsg.errorResp _ => true
  | _ => false

/-- Client message handler of the main server: only the subscribe branch
    exists, guarded by a truthy symbol and an open upstream socket; it adds
    the symbol, sends a ticks-subscribe request upstream and acknowledges.
    Every other client message (unsubscribe included) is ignored. -/
def handleClient (m : Meta) (msg : CMsg) : Meta × List Ev :=
  match msg with
  | CMsg.subscribe sym =>
      if sym != "" && sockOpen m.derivWs then
        ({ m with subscribed := insertSet m.subscribed sym },
         [Ev.toUpstream (UpReq.ticksSubscribe sym), Ev.toClient (SMsg.subscribed sym)])
      else (m, [])
  | _ => (m, [])

/-- The buy flow applied to a located meta (lines 78 to 98 of the main
    server): register the resolver under reqId (overwriting any entry with
    the same key), then attempt the upstream send. sendErr is none when the
    send succeeds (the HTTP response stays pending) and carries the thrown
    message when it fails, in which case the registration is deleted and a
    500 error is returned directly. -/
def buyOn (m : Meta) (symbol : String) (stake : Int) (reqId caller : Nat)
    (sendErr : Option String) : Meta × Option UpReq × Option HttpResp :=
  let m1 : Meta := { m with pendingRequests := setPending m.pendingRequests reqId caller }
  match sendErr with
  | none => (m1, some (UpReq.buy stake symbol), none)
  | some e =>
      ({ m1 with pendingRequests := delPending m1.pendingRequests reqId },
       none, some (HttpResp.fail 500 e))

/-- Events that can reach one connection: upstream socket open and close,
    an upstream message, a client message, and a buy submission routed to
    this connection by POST /api/buy. -/
inductive ConnEvent where
  | upOpen
  | upClose
  | fromUpstream (msg : UpMsg)
  | fromClient (msg : CMsg)
  | buySubmit (symbol : String) (stake : Int) (reqId caller : Nat) (sendErr : Option String)
  deriving DecidableEq

/-- One step of the connection lifecycle. A buy submission only reaches a
    connection that the endpoint lookup would select (non-null upstream
    socket and authorized flag set). -/
def connStep (m : Meta) : ConnEvent → Meta × List Ev
  | ConnEvent.upOpen => handleOpen m
  | ConnEvent.upClose => (handleUpClose m, [])
  | ConnEvent.fromUpstream msg => handleUpstream m msg
  | ConnEvent.fromClient msg => handleClient m msg
  | ConnEvent.buySubmit sym stake reqId caller sendErr =>
      if m.derivWs.isSome && m.authorized then
        match buyOn m sym stake reqId caller sendErr with
        | (m1, some req, _) => (m1, [Ev.toUpstream req])
        | (m1, none, some (HttpResp.fail s e)) => (m1, [Ev.httpError caller s e])
        | (m1, none, _) => (m1, [])
      else (m, [])

/-- A whole connection trace: fold connStep over the event list, concatenating
    the emitted effects in order. -/
def runConn (m : Meta) : List ConnEvent → Meta × List Ev
  | [] => (m, [])
  | e :: es =>
      let r := connStep m e
      let rest := runConn r.1 es
      (rest.1, r.2 ++ rest.2)

/-- The connection registry (clientMeta): a Map keyed by the client socket,
    iterated in insertion order; modelled as an insertion-ordered association
    list keyed by an opaque connection id. -/
abbrev Registry := List (Nat × Meta)

/-- clientMeta.set on a fresh client socket. -/
def registerConn (reg : Registry) (cid : Nat) (m : Meta) : Registry :=
  reg ++ [(cid, m)]

/-- The POST /api/buy lookup predicate:
    meta.sessionId === sid && meta.derivWs && meta.authorized.
    The upstream socket is only required to be non-null, not open. -/
def qualBuy (sid : String) (m : Meta) : Bool :=
  m.sessionId == some sid && m.derivWs.isSome && m.authorized

/-- First registry entry satisfying qualBuy, in insertion order. -/
def findBuy (sid : String) : Registry → Option (Nat × Meta)
  | [] => none
  | (cid, m) :: rest => if qualBuy sid m then some (cid, m) else findBuy sid rest

/-- The GET /me lookup predicate: meta.sessionId === sid && meta.accountInfo. -/
def qualMe (sid : String) (m : Meta) : Bool :=
  m.sessionId == some sid && m.accountInfo.isSome

/-- First registry entry satisfying qualMe, in insertion order. -/
def findMe (sid : String) : Registry → Option (Nat × Meta)
  | [] => none
  | (cid, m) :: rest => if qualMe sid m then some (cid, m) else findMe sid rest

/-- Replace the meta stored under a connection id. -/
def updateReg : Registry → Nat → Meta → Registry
  | [], _, _ => []
  | (cid, m) :: rest, i, m1 =>
      if cid = i then (i, m1) :: rest else (cid, m) :: updateReg rest i m1

/-- The session guard shared by the endpoints:
    !sid || !sessionTokenStore[sid] rejects. -/
def sessionOk (store : List (String × String)) : Option String → Bool
  | none => false
  | some s => if s = "" then false else truthyStr (storeLookup store s)

/-- Outcome of one POST /api/buy invocation: the updated registry, the
    payload written to an upstream socket (tagged with the connection it was
    written on) if any, and the HTTP response if one was produced
    synchronously (none while the caller is left pending). -/
structure BuyOutcome where
  registry : Registry
  sent : Option (Nat × UpReq)
  response : Option HttpResp
  deriving DecidableEq

/-- POST /api/buy: 401 when the session guard fails, 400 when symbol or stake
    is falsy, 500 deriv connection not ready when no registry entry
    qualifies; otherwise run the buy flow on the first qualifying entry. -/
def apiBuy (store : List (String × String)) (reg : Registry)
    (sidCookie symbol : Option String) (stake : Option Int)
    (reqId caller : Nat) (sendErr : Option String) : BuyOutcome :=
  if !(sessionOk store sidCookie) then
    { registry := reg, sent := none, response := some (HttpResp.fail 401 "not logged") }
  else if !(truthyStr symbol && truthyInt stake) then
    { registry := reg, sent := none, response := some (HttpResp.fail 400 "missing params") }
  else
    match findBuy (sidCookie.getD "") reg with
    | none =>
        { registry := reg, sent := none,
          response := some (HttpResp.fail 500 "deriv connection not ready") }
    | some (cid, m) =>
        let r := buyOn m (symbol.getD "") (stake.getD 0) reqId caller sendErr
        { registry := updateReg reg cid r.1,
          sent := r.2.1.map (fun q => (cid, q)),
          response := r.2.2 }

/-- GET /me: 401-style meFail when the session guard fails; otherwise the
    account of the first registry entry for this session with account info,
    or a null account. -/
def apiMe (store : List (String × String)) (reg : Registry)
    (sidCookie : Option String) : HttpResp :=
  if !(sessionOk store sidCookie) then HttpResp.meFail
  else
    match findMe (sidCookie.getD "") reg with
    | some r => HttpResp.meOk r.2.accountInfo
    | none => HttpResp.meOk none

/-- Sample session store holding one session S1 with token T. -/
def store1 : List (String × String) := [("S1", "T")]

/-- Sample connection for S1, authorized, upstream socket open. -/
def mAuth : Meta :=
  { sessionId := some "S1", token := some "T", derivWs := some { isOpen := true },
    subscribed := [], accountInfo := some { loginid := "CR1", currency := "USD", balance := 100 },
    authorized := true, pendingRequests := [] }

/-- Sample connection for S1, authorized, but whose upstream socket has
    closed again (reachable: authorize succeeded, then the upstream closed;
    the close handler only logs and clears nothing). -/
def mClosed : Meta := { mAuth with derivWs := some { isOpen := false } }

/-- Sample connection for S1 that never completed authorization. -/
def mUnauth : Meta :=
  { sessionId := some "S1", token := some "T", derivWs := some { isOpen := true },
    subscribed := [], accountInfo := none, authorized := false, pendingRequests := [] }

/-- A second authorized connection for the same session S1. -/
def mAuth2 : Meta :=
  { mAuth with accountInfo := some { loginid := "CR2", currency := "USD", balance := 50 } }

/-- Sample Ready connection for S1 subscribed to R_100. -/
def mReady : Meta := { mAuth with subscribed := ["R_100"] }

end Main

namespace Alt

/-- Per-connection metadata of the simpler variant (src/backend/server.js):
    no account info, no authorized flag, no pending requests. -/
structure AltMeta where
  sessionId : Option String
  token : Option String
  derivWs : Option Sock
  subscribed : List String
  deriving DecidableEq

/-- derivWs open handler of the variant: with a truthy token it sends the
    authorize request upstream and immediately sends a bare authorized event
    to the client, before any upstream response. -/
def handleOpen (m : AltMeta) : AltMeta × List Ev :=
  let m1 : AltMeta := { m with derivWs := m.derivWs.map (fun _ => { isOpen := true }) }
  match m.token with
  | some t =>
      if t = "" then (m1, [])
      else (m1, [Ev.toUpstream (UpReq.authorize t), Ev.toClient (SMsg.authorized none)])
  | none => (m1, [])

/-- derivWs message handler of the variant: only ticks are forwarded. -/
def handleUpstream (m : AltMeta) (msg : UpMsg) : AltMeta × List Ev :=
  match msg with
  | UpMsg.tick s q ep => (m, [Ev.toClient (SMsg.tick s q ep)])
  | _ => (m, [])

/-- Client message handler of the variant: config is logged only; subscribe
    sends upstream, records the symbol and acknowledges; unsubscribe sends
    the fixed request forget ticks upstream (a literal constant, not the
    subscription id of the symbol), removes the symbol and acknowledges. -/
def handleClient (m : AltMeta) (msg : CMsg) : AltMeta × List Ev :=
  match msg with
  | CMsg.config => (m, [])
  | CMsg.subscribe sym =>
      if sym != "" then
        ({ m with subscribed := insertSet m.subscribed sym },
         [Ev.toUpstream (UpReq.ticksSubscribe sym), Ev.toClient (SMsg.subscribed sym)])
      else (m, [])
  | CMsg.unsubscribe sym =>
      if sym != "" then
        ({ m with subscribed := removeSet m.subscribed sym },
         [Ev.toUpstream (UpReq.forget "ticks"), Ev.toClient (SMsg.unsubscribed sym)])
      else (m, [])

/-- Variant metadata as initialised at connection accept: the upstream socket
    freshly created and not yet open, empty subscription set, token captured
    from the session store by the connection closure. -/
def initMeta (store : List (String × String)) (sid : Option String) : AltMeta :=
  { sessionId := sid, token := tokenCapture store sid,
    derivWs := some { isOpen := false }, subscribed := [] }

/-- Variant derivWs close: readyState leaves OPEN; the handler only logs. -/
def handleUpClose (m : AltMeta) : AltMeta :=
  { m with derivWs := m.derivWs.map (fun _ => { isOpen := false }) }

/-- Events that can reach one variant connection: upstream socket open and
    close, an upstream message, and a client message (the variant has no buy
    endpoint). -/
inductive ConnEvent where
  | upOpen
  | upClose
  | fromUpstream (msg : UpMsg)
  | fromClient (msg : CMsg)
  deriving DecidableEq

/-- One step of the variant connection lifecycle. -/
def connStep (m : AltMeta) : ConnEvent → AltMeta × List Ev
  | ConnEvent.upOpen => handleOpen m
  | ConnEvent.upClose => (handleUpClose m, [])
  | ConnEvent.fromUpstream msg => handleUpstream m msg
  | ConnEvent.fromClient msg => handleClient m msg

/-- A whole variant connection trace: fold connStep over the event list,
    concatenating the emitted effects in order. -/
def runConn (m : AltMeta) : List ConnEvent → AltMeta × List Ev
  | [] => (m, [])
  | e :: es =>
      let r := connStep m e
      let rest := runConn r.1 es
      (rest.1, r.2 ++ rest.2)

/-- Sample variant connection for S1 with a token, upstream not yet open. -/
def altM : AltMeta :=
  { sessionId := some "S1", token := some "T", derivWs := some { isOpen := false },
    subscribed := [] }

/-- Sample variant connection subscribed to R_100. -/
def altMReady : AltMeta :=
  { sessionId := some "S1", token := some "T", derivWs := some { isOpen := true },
    subscribed := ["R_100"] }

end Alt

/-- Event predicate: an authorize request written upstream. -/
def isAuthorizeSend : Ev → Bool
  | Ev.toUpstream (UpReq.authorize _) => true
  | _ => false

/-- Event predicate: an authorized message sent to the client. -/
def isAuthorizedEv : Ev → Bool
  | Ev.toClient (SMsg.authorized _) => true
  | _ => false

/-- Connection-event predicate: an upstream authorize success arriving. -/
def isAuthOkInput : Main.ConnEvent → Bool
  | Main.ConnEvent.fromUpstream (UpMsg.authorizeOk _ _ _) => true
  | _ => false

/-- Response predicate: the ok-true envelope a registered resolver produces. -/
def isOkResultResp : Option HttpResp → Bool
  | some (HttpResp.okResult _) => true
  | _ => false

/-- Filtering a mapped list by a predicate false on the image is empty. -/
theorem filter_map_nil {α β : Type} (p : β → Bool) (f : α → β) (l : List α)
    (h : ∀ x, p (f x) = false) : (l.map f).filter p = [] := by
  induction l with
  | nil => rfl
  | cons a l ih => simp [List.filter, h a, ih]

namespace Main

/-- Claim C1: when a buy or error message arrives from upstream on a
    connection with any number of pending trade requests, the bridge first
    forwards a buy_result message with the upstream payload to the client and
    then resolves every currently registered pending resolver with that same
    message, clearing the pending table (broadcast resolution). -/
theorem buy_or_error_broadcast_resolves (m : Meta) (msg : UpMsg)
    (h : isBuyOrError msg = true) :
    handleUpstream m msg =
      ({ m with pendingRequests := [] },
       Ev.toClient (SMsg.buyResult msg) ::
         m.pendingRequests.map (fun p => Ev.resolve p.2 msg)) := by
  cases msg <;> simp_all [handleUpstream, isBuyOrError]

/-- Witness for C1: a buy reply on a connection with two pending requests
    emits the buy_result first and then resolves both callers with it. -/
theorem buy_or_error_broadcast_resolves_witness :
    handleUpstream
      { sessionId := some "S1", token := some "T", derivWs := some { isOpen := true },
        subscribed := [], accountInfo := none, authorized := true,
        pendingRequests := [(5, 1), (9, 2)] }
      (UpMsg.buyResp "c1") =
      ({ sessionId := some "S1", token := some "T", derivWs := some { isOpen := true },
         subscribed := [], accountInfo := none, authorized := true,
         pendingRequests := [] },
       [Ev.toClient (SMsg.buyResult (UpMsg.buyResp "c1")),
        Ev.resolve 1 (UpMsg.buyResp "c1"), Ev.resolve 2 (UpMsg.buyResp "c1")]) :=
  buy_or_error_broadcast_resolves _ _ rfl

/-- Resolver invocations are never authorize sends. -/
theorem filter_authSend_resolve (l : List (Nat × Nat)) (msg : UpMsg) :
    (l.map (fun p => Ev.resolve p.2 msg)).filter isAuthorizeSend = [] :=
  filter_map_nil _ _ _ (fun _ => rfl)

/-- Resolver invocations are never authorized client events. -/
theorem filter_authEv_resolve (l : List (Nat × Nat)) (msg : UpMsg) :
    (l.map (fun p => Ev.resolve p.2 msg)).filter isAuthorizedEv = [] :=
  filter_map_nil _ _ _ (fun _ => rfl)

/-- No handler of the main server changes the captured token. -/
theorem connStep_token (m : Meta) (e : ConnEvent) :
    (connStep m e).1.token = m.token := by
  cases e with
  | upOpen =>
      simp only [connStep, handleOpen]
      cases m.token with
      | none => rfl
      | some t => by_cases ht : t = "" <;> simp [ht]
  | upClose => rfl
  | fromUpstream msg => cases msg <;> rfl
  | fromClient msg =>
      cases msg with
      | subscribe sym =>
          simp only [connStep, handleClient]
          by_cases h : (sym != "" && sockOpen m.derivWs) = true <;> simp [h]
      | unsubscribe sym => rfl
      | config => rfl
  | buySubmit sym stake reqId caller sendErr =>
      simp only [connStep]
      by_cases h : (m.derivWs.isSome && m.authorized) = true
      · cases sendErr <;> simp [h, buyOn]
      · simp [h]

/-- With no captured token, no single step writes an authorize request. -/
theorem connStep_no_authorize (m : Meta) (e : ConnEvent) (h : m.token = none) :
    (connStep m e).2.filter isAuthorizeSend = [] := by
  cases e with
  | upOpen => simp [connStep, handleOpen, h]
  | upClose => rfl
  | fromUpstream msg =>
      cases msg <;>
        simp [connStep, handleUpstream, List.filter, isAuthorizeSend, filter_authSend_resolve]
  | fromClient msg =>
      cases msg with
      | subscribe sym =>
          simp only [connStep, handleClient]
          by_cases hs : (sym != "" && sockOpen m.derivWs) = true <;>
            simp [hs, isAuthorizeSend]
      | unsubscribe sym => rfl
      | config => rfl
  | buySubmit sym stake reqId caller sendErr =>
      simp only [connStep]
      by_cases hq : (m.derivWs.isSome && m.authorized) = true
      · cases sendErr <;> simp [hq, buyOn] <;> rfl
      · simp [hq]

/-- With no captured token, no reachable execution of the connection
    lifecycle ever writes an authorize request to the upstream socket. -/
theorem runConn_no_authorize (m : Meta) (evs : List ConnEvent) (h : m.token = none) :
    (runConn m evs).2.filter isAuthorizeSend = [] := by
  induction evs generalizing m with
  | nil => rfl
  | cons e es ih =>
      show ((connStep m e).2 ++ (runConn (connStep m e).1 es).2).filter isAuthorizeSend = []
      rw [List.filter_append, connStep_no_authorize m e h,
        ih _ (by rw [connStep_token]; exact h)]
      rfl

/-- A step of the main server emits an authorized client event only when the
    incoming event is an upstream authorize success. -/
theorem connStep_no_authorized_ev (m : Meta) (e : ConnEvent)
    (h : isAuthOkInput e = false) :
    (connStep m e).2.filter isAuthorizedEv = [] := by
  cases e with
  | upOpen =>
      simp only [connStep, handleOpen]
      cases m.token with
      | none => rfl
      | some t => by_cases ht : t = "" <;> simp [ht, isAuthorizedEv]
  | upClose => rfl
  | fromUpstream msg =>
      cases msg with
      | authorizeOk l c b => simp [isAuthOkInput] at h
      | authorizeErr e => rfl
      | tick s q ep => rfl
      | buyResp c =>
          simp [connStep, handleUpstream, List.filter, isAuthorizedEv, filter_authEv_resolve]
      | errorResp e =>
          simp [connStep, handleUpstream, List.filter, isAuthorizedEv, filter_authEv_resolve]
      | other => rfl
  | fromClient msg =>
      cases msg with
      | subscribe sym =>
          simp only [connStep, handleClient]
          by_cases hs : (sym != "" && sockOpen m.derivWs) = true <;>
            simp [hs, isAuthorizedEv]
      | unsubscribe sym => rfl
      | config => rfl
  | buySubmit sym stake reqId caller sendErr =>
      simp only [connStep]
      by_cases hq : (m.derivWs.isSome && m.authorized) = true
      · cases sendErr <;> simp [hq, buyOn, isAuthorizedEv]
      · simp [hq]

/-- In the main server, if no upstream authorize success arrives on a
    connection, no authorized event is ever sent to its client. -/
theorem runConn_no_authorized_ev (m : Meta) (evs : List ConnEvent)
    (h : evs.filter isAuthOkInput = []) :
    (runConn m evs).2.filter isAuthorizedEv = [] := by
  induction evs generalizing m with
  | nil => rfl
  | cons e es ih =>
      rw [List.filter_cons] at h
      by_cases hb : isAuthOkInput e = true
      · simp [hb] at h
      · have hb1 : isAuthOkInput e = false := by simpa using hb
        simp only [hb1, Bool.false_eq_true, if_false] at h
        show ((connStep m e).2 ++ (runConn (connStep m e).1 es).2).filter isAuthorizedEv = []
        rw [List.filter_append, connStep_no_authorized_ev m e hb1, ih _ h]
        rfl

end Main

namespace Alt

/-- No handler of the variant changes the captured token. -/
theorem alt_connStep_token (m : AltMeta) (e : ConnEvent) :
    (connStep m e).1.token = m.token := by
  cases e with
  | upOpen =>
      simp only [connStep, handleOpen]
      cases m.token with
      | none => rfl
      | some t => by_cases ht : t = "" <;> simp [ht]
  | upClose => rfl
  | fromUpstream msg => cases msg <;> rfl
  | fromClient msg =>
      cases msg with
      | subscribe sym =>
          simp only [connStep, handleClient]
          by_cases h : (sym != "") = true <;> simp [h]
      | unsubscribe sym =>
          simp only [connStep, handleClient]
          by_cases h : (sym != "") = true <;> simp [h]
      | config => rfl

/-- With no captured token, no single variant step writes an authorize
    request. -/
theorem alt_connStep_no_authorize (m : AltMeta) (e : ConnEvent) (h : m.token = none) :
    (connStep m e).2.filter isAuthorizeSend = [] := by
  cases e with
  | upOpen => simp [connStep, handleOpen, h]
  | upClose => rfl
  | fromUpstream msg => cases msg <;> rfl
  | fromClient msg =>
      cases msg with
      | subscribe sym =>
          simp only [connStep, handleClient]
          by_cases hs : (sym != "") = true <;> simp [hs, isAuthorizeSend]
      | unsubscribe sym =>
          simp only [connStep, handleClient]
          by_cases hs : (sym != "") = true <;> simp [hs, isAuthorizeSend]
      | config => rfl

/-- With no captured token, no reachable execution of a variant connection
    lifecycle ever writes an authorize request to the upstream socket. -/
theorem alt_runConn_no_authorize (m : AltMeta) (evs : List ConnEvent)
    (h : m.token = none) :
    (runConn m evs).2.filter isAuthorizeSend = [] := by
  induction evs generalizing m with
  | nil => rfl
  | cons e es ih =>
      show ((connStep m e).2 ++ (runConn (connStep m e).1 es).2).filter isAuthorizeSend = []
      rw [List.filter_append, alt_connStep_no_authorize m e h,
        ih _ (by rw [alt_connStep_token]; exact h)]
      rfl

end Alt

/-- Claim C5: in both servers, a client subscribe message with a truthy
    symbol handled in the Ready state issues exactly one upstream
    ticks-subscribe request, adds the symbol to the subscribed set, and
    acknowledges the client with subscribed. In the main server the branch
    is guarded by an open upstream socket; the variant has no such guard, so
    the same equation holds for it unconditionally (and in particular in the
    Ready state). Neither equation carries a condition on prior membership,
    so re-subscribing an already-subscribed symbol issues the same duplicate
    upstream request (no deduplication against the subscribed set). -/
theorem subscribe_forwards_both :
    (∀ (m : Main.Meta) (sym : String), sym ≠ "" → sockOpen m.derivWs = true →
       Main.handleClient m (CMsg.subscribe sym) =
         ({ m with subscribed := insertSet m.subscribed sym },
          [Ev.toUpstream (UpReq.ticksSubscribe sym), Ev.toClient (SMsg.subscribed sym)]))
    ∧ (∀ (m : Alt.AltMeta) (sym : String), sym ≠ "" →
       Alt.handleClient m (CMsg.subscribe sym) =
         ({ m with subscribed := insertSet m.subscribed sym },
          [Ev.toUpstream (UpReq.ticksSubscribe sym), Ev.toClient (SMsg.subscribed sym)])) := by
  constructor
  · intro m sym hsym hopen
    simp [Main.handleClient, hopen, bne, hsym]
  · intro m sym hsym
    simp [Alt.handleClient, bne, hsym]

/-- Witness for C5: re-subscribing R_100 on connections of both servers
    already subscribed to it still sends the duplicate upstream request and
    the acknowledgment, leaving the subscribed set unchanged. -/
theorem subscribe_forwards_both_witness :
    Main.handleClient Main.mReady (CMsg.subscribe "R_100") =
      (Main.mReady,
       [Ev.toUpstream (UpReq.ticksSubscribe "R_100"),
        Ev.toClient (SMsg.subscribed "R_100")])
    ∧ Alt.handleClient Alt.altMReady (CMsg.subscribe "R_100") =
      (Alt.altMReady,
       [Ev.toUpstream (UpReq.ticksSubscribe "R_100"),
        Ev.toClient (SMsg.subscribed "R_100")]) :=
  ⟨subscribe_forwards_both.1 Main.mReady "R_100" (by decide) rfl,
   subscribe_forwards_both.2 Alt.altMReady "R_100" (by decide)⟩

/-- Claim C6: in both servers, a sequence of upstream tick messages is
    forwarded to the client as tick messages with symbol, quote and epoch
    unchanged, in arrival order, and the connection state is left exactly as
    it was. -/
theorem ticks_forwarded_in_order_both :
    (∀ (m : Main.Meta) (ts : List (String × String × Nat)),
       Main.runConn m
           (ts.map (fun t => Main.ConnEvent.fromUpstream (UpMsg.tick t.1 t.2.1 t.2.2))) =
         (m, ts.map (fun t => Ev.toClient (SMsg.tick t.1 t.2.1 t.2.2))))
    ∧ (∀ (m : Alt.AltMeta) (ts : List (String × String × Nat)),
       Alt.runConn m
           (ts.map (fun t => Alt.ConnEvent.fromUpstream (UpMsg.tick t.1 t.2.1 t.2.2))) =
         (m, ts.map (fun t => Ev.toClient (SMsg.tick t.1 t.2.1 t.2.2)))) := by
  constructor
  · intro m ts
    induction ts generalizing m with
    | nil => rfl
    | cons t ts ih => simp [Main.runConn, Main.connStep, Main.handleUpstream, ih]
  · intro m ts
    induction ts generalizing m with
    | nil => rfl
    | cons t ts ih => simp [Alt.runConn, Alt.connStep, Alt.handleUpstream, ih]

/-- Claim C7: in both servers, a connection whose session has no stored
    token at accept time (anonymous connection or unknown session id) never
    sends an authorize message on its upstream socket, in any reachable
    execution of the connection lifecycle. -/
theorem no_token_no_authorize_both :
    (∀ (store : List (String × String)) (sid : Option String)
        (evs : List Main.ConnEvent),
       tokenCapture store sid = none →
       (Main.runConn (Main.initMeta store sid) evs).2.filter isAuthorizeSend = [])
    ∧ (∀ (store : List (String × String)) (sid : Option String)
        (evs : List Alt.ConnEvent),
       tokenCapture store sid = none →
       (Alt.runConn (Alt.initMeta store sid) evs).2.filter isAuthorizeSend = []) :=
  ⟨fun _ _ evs h => Main.runConn_no_authorize _ evs h,
   fun _ _ evs h => Alt.alt_runConn_no_authorize _ evs h⟩

/-- Witness for C7: anonymous connections of both servers that open,
    subscribe and receive a tick write no authorize request. -/
theorem no_token_no_authorize_both_witness :
    (Main.runConn (Main.initMeta Main.store1 none)
        [Main.ConnEvent.upOpen, Main.ConnEvent.fromClient (CMsg.subscribe "R_100"),
         Main.ConnEvent.fromUpstream (UpMsg.tick "R_100" "963.5" 1690000000)]).2.filter
      isAuthorizeSend = []
    ∧ (Alt.runConn (Alt.initMeta Main.store1 none)
        [Alt.ConnEvent.upOpen, Alt.ConnEvent.fromClient (CMsg.subscribe "R_100"),
         Alt.ConnEvent.fromUpstream (UpMsg.tick "R_100" "963.5" 1690000000)]).2.filter
      isAuthorizeSend = [] :=
  ⟨no_token_no_authorize_both.1 Main.store1 none _ rfl,
   no_token_no_authorize_both.2 Main.store1 none _ rfl⟩

/-- Counterexample for C4: in the src/backend/server.js variant the upstream
    open handler itself sends a bare authorized message to the client as soon
    as the upstream socket opens with a token present, before any upstream
    authorize response exists; the claim states the authorized event is sent
    only upon an upstream authorize success and never at upstream socket
    open. -/
theorem authorized_sent_at_open_cex :
    (Alt.handleOpen Alt.altM).2 =
      [Ev.toUpstream (UpReq.authorize "T"), Ev.toClient (SMsg.authorized none)] := rfl

/-- Claim C4 as amended: in the main server, an upstream authorize success
    stores the account info, sets the authorized flag, and sends the
    authorized event followed by the balance event in that order, and an
    authorized event is sent only upon such a success (none arrives, none is
    sent); the src/backend/server.js variant additionally sends a bare
    authorized event (without account) at upstream socket open whenever a
    token exists. -/
theorem authorized_only_on_success_amended :
    (∀ (m : Main.Meta) (l c : String) (b : Int),
       Main.handleUpstream m (UpMsg.authorizeOk l c b) =
         ({ m with authorized := true,
                   accountInfo := some { loginid := l, currency := c, balance := b } },
          [Ev.toClient (SMsg.authorized (some { loginid := l, currency := c, balance := b })),
           Ev.toClient (SMsg.balance b)]))
    ∧ (∀ (m : Main.Meta) (evs : List Main.ConnEvent),
         evs.filter isAuthOkInput = [] →
         (Main.runConn m evs).2.filter isAuthorizedEv = [])
    ∧ (∀ (m : Alt.AltMeta) (t : String), m.token = some t → t ≠ "" →
         (Alt.handleOpen m).2 =
           [Ev.toUpstream (UpReq.authorize t), Ev.toClient (SMsg.authorized none)]) := by
  refine ⟨fun m l c b => rfl, Main.runConn_no_authorized_ev, fun m t ht hne => ?_⟩
  simp [Alt.handleOpen, ht, hne]

/-- Witness for C4 amended: concrete authorize success on an unauthorized
    connection, a trace without authorize success emitting no authorized
    event, and the variant emitting the authorized event at open. -/
theorem authorized_only_on_success_amended_witness :
    Main.handleUpstream Main.mUnauth (UpMsg.authorizeOk "CR1" "USD" 100) =
      ({ Main.mUnauth with
          authorized := true,
          accountInfo := some { loginid := "CR1", currency := "USD", balance := 100 } },
       [Ev.toClient (SMsg.authorized (some { loginid := "CR1", currency := "USD", balance := 100 })),
        Ev.toClient (SMsg.balance 100)])
    ∧ (Main.runConn Main.mUnauth
        [Main.ConnEvent.upOpen,
         Main.ConnEvent.fromUpstream (UpMsg.tick "R_100" "963.5" 1)]).2.filter
        isAuthorizedEv = []
    ∧ (Alt.handleOpen Alt.altM).2 =
        [Ev.toUpstream (UpReq.authorize "T"), Ev.toClient (SMsg.authorized none)] :=
  ⟨authorized_only_on_success_amended.1 Main.mUnauth "CR1" "USD" 100,
   authorized_only_on_success_amended.2.1 Main.mUnauth _ (by decide),
   authorized_only_on_success_amended.2.2 Alt.altM "T" rfl (by decide)⟩

/-- Counterexample for C3: in the main server, a Ready connection subscribed
    to R_100 that receives an unsubscribe message does nothing at all: no
    forget request is forwarded upstream, the symbol stays in the subscribed
    set, and no unsubscribed acknowledgment is sent, because the client
    message handler has no unsubscribe branch. -/
theorem unsubscribe_ignored_cex :
    Main.handleClient Main.mReady (CMsg.unsubscribe "R_100") = (Main.mReady, []) := rfl

/-- Claim C3 as amended: in the src/backend/server.js variant, an unsubscribe
    message with a truthy symbol sends the fixed request forget ticks
    upstream (a literal constant, not an identifier of that subscription),
    removes the symbol from the subscribed set and acknowledges the client
    with unsubscribed; in the main server, unsubscribe messages are ignored
    entirely. -/
theorem unsubscribe_amended :
    (∀ (m : Alt.AltMeta) (sym : String), sym ≠ "" →
       Alt.handleClient m (CMsg.unsubscribe sym) =
         ({ m with subscribed := removeSet m.subscribed sym },
          [Ev.toUpstream (UpReq.forget "ticks"), Ev.toClient (SMsg.unsubscribed sym)]))
    ∧ (∀ (m : Main.Meta) (sym : String),
         Main.handleClient m (CMsg.unsubscribe sym) = (m, [])) := by
  constructor
  · intro m sym h
    simp [Alt.handleClient, bne, h]
  · intro m sym
    rfl

/-- Witness for C3 amended: unsubscribing R_100 on a subscribed variant
    connection, and on a subscribed main-server connection. -/
theorem unsubscribe_amended_witness :
    Alt.handleClient Alt.altMReady (CMsg.unsubscribe "R_100") =
      ({ sessionId := some "S1", token := some "T", derivWs := some { isOpen := true },
         subscribed := [] },
       [Ev.toUpstream (UpReq.forget "ticks"), Ev.toClient (SMsg.unsubscribed "R_100")])
    ∧ Main.handleClient Main.mReady (CMsg.unsubscribe "R_100") = (Main.mReady, []) :=
  ⟨unsubscribe_amended.1 Alt.altMReady "R_100" (by decide),
   unsubscribe_amended.2 Main.mReady "R_100"⟩

namespace Main

/-- If no registry entry qualifies, the buy lookup finds nothing. -/
theorem findBuy_eq_none (sid : String) (reg : Registry)
    (h : ∀ p ∈ reg, qualBuy sid p.2 = false) : findBuy sid reg = none := by
  induction reg with
  | nil => rfl
  | cons p rest ih =>
      obtain ⟨cid, m⟩ := p
      simp only [findBuy, h (cid, m) (List.mem_cons_self _ _), Bool.false_eq_true, if_false]
      exact ih (fun q hq => h q (List.mem_cons_of_mem _ hq))

/-- The buy lookup returns the first qualifying entry in insertion order. -/
theorem findBuy_first (sid : String) (pre rest : Registry) (c1 : Nat) (m1 : Meta)
    (hpre : ∀ p ∈ pre, qualBuy sid p.2 = false) (h1 : qualBuy sid m1 = true) :
    findBuy sid (pre ++ (c1, m1) :: rest) = some (c1, m1) := by
  induction pre with
  | nil => simp [findBuy, h1]
  | cons p pre ih =>
      obtain ⟨cid, m⟩ := p
      simp only [List.cons_append, findBuy, hpre (cid, m) (List.mem_cons_self _ _),
        Bool.false_eq_true, if_false]
      exact ih (fun q hq => hpre q (List.mem_cons_of_mem _ hq))

/-- The account lookup of GET /me returns the first qualifying entry. -/
theorem findMe_first (sid : String) (pre rest : Registry) (c1 : Nat) (m1 : Meta)
    (hpre : ∀ p ∈ pre, qualMe sid p.2 = false) (h1 : qualMe sid m1 = true) :
    findMe sid (pre ++ (c1, m1) :: rest) = some (c1, m1) := by
  induction pre with
  | nil => simp [findMe, h1]
  | cons p pre ih =>
      obtain ⟨cid, m⟩ := p
      simp only [List.cons_append, findMe, hpre (cid, m) (List.mem_cons_self _ _),
        Bool.false_eq_true, if_false]
      exact ih (fun q hq => hpre q (List.mem_cons_of_mem _ hq))

/-- Deleting a key from the pending table leaves no resolver under it. -/
theorem lookupPending_delPending (l : List (Nat × Nat)) (k : Nat) :
    lookupPending (delPending l k) k = none := by
  induction l with
  | nil => rfl
  | cons p rest ih =>
      obtain ⟨k1, c1⟩ := p
      by_cases h : k1 = k
      · simpa [delPending, List.filter_cons, h] using ih
      · simpa [delPending, List.filter_cons, lookupPending, bne, h] using ih

/-- Counterexample for C2: with the single connection for session S1
    authorized but with its upstream socket closed again, no ConnectionState
    for the session has both the authorized flag and an open upstream socket,
    yet POST /api/buy does not fail with the 5xx not-ready error: the lookup
    only checks that the socket is non-null, so the handler finds the
    connection, writes the buy payload to its closed upstream socket, and
    leaves the caller pending. -/
theorem buy_closed_socket_cex :
    (([(0, mClosed)] : Registry).all
        (fun p => !(qualBuy "S1" p.2 && sockOpen p.2.derivWs))) = true
    ∧ (apiBuy store1 [(0, mClosed)] (some "S1") (some "R_100") (some 10) 42 7 none).sent
        = some (0, UpReq.buy 10 "R_100")
    ∧ (apiBuy store1 [(0, mClosed)] (some "S1") (some "R_100") (some 10) 42 7
        none).response = none :=
  ⟨rfl, rfl, rfl⟩

/-- Claim C2 as amended: if no ConnectionState for the session has the
    authorized flag and a non-null upstream socket (the code does not check
    that the socket is open), POST /api/buy fails immediately with the 500
    deriv-connection-not-ready error, the registry is unchanged, and no
    payload is written to any upstream socket. -/
theorem buy_unavailable_amended (store : List (String × String)) (reg : Registry)
    (sidCookie symbol : Option String) (stake : Option Int) (reqId caller : Nat)
    (sendErr : Option String)
    (hsess : sessionOk store sidCookie = true)
    (hparams : (truthyStr symbol && truthyInt stake) = true)
    (hnone : ∀ p ∈ reg, qualBuy (sidCookie.getD "") p.2 = false) :
    apiBuy store reg sidCookie symbol stake reqId caller sendErr =
      { registry := reg, sent := none,
        response := some (HttpResp.fail 500 "deriv connection not ready") } := by
  simp [apiBuy, hsess, hparams, findBuy_eq_none _ _ hnone]

/-- Witness for C2 amended: a session whose only connection never authorized
    is rejected with the not-ready error and nothing is sent upstream. -/
theorem buy_unavailable_amended_witness :
    apiBuy store1 [(0, mUnauth)] (some "S1") (some "R_100") (some 10) 1 1 none =
      { registry := [(0, mUnauth)], sent := none,
        response := some (HttpResp.fail 500 "deriv connection not ready") } :=
  buy_unavailable_amended _ _ _ _ _ _ _ _ (by decide) (by decide) (by decide)

/-- Counterexample for C9: when the upstream write throws (here with message
    socket closed), the HTTP caller receives the direct 500 ok-false error
    response, not the ok-true result envelope that the registered resolver
    produces whenever it is invoked; the resolver is therefore never invoked
    with an error (its registration is deleted instead), refuting the claim
    that the registered resolver is invoked immediately with an error. -/
theorem send_failure_resolver_not_invoked_cex :
    (apiBuy store1 [(0, mAuth)] (some "S1") (some "R_100") (some 10) 50 3
        (some "socket closed")).response = some (HttpResp.fail 500 "socket closed")
    ∧ isOkResultResp
        (apiBuy store1 [(0, mAuth)] (some "S1") (some "R_100") (some 10) 50 3
          (some "socket closed")).response = false
    ∧ (apiBuy store1 [(0, mAuth)] (some "S1") (some "R_100") (some 10) 50 3
        (some "socket closed")).registry = [(0, mAuth)] :=
  ⟨rfl, rfl, rfl⟩

/-- Claim C9 as amended: if the upstream write throws, the pending
    registration is removed (no resolver for that request remains waiting)
    and the waiting HTTP caller directly receives the 500 error response
    carrying the thrown message; the registered resolver itself is not
    invoked, as the response is not the ok-true result envelope a resolver
    produces. -/
theorem send_failure_amended (store : List (String × String)) (reg : Registry)
    (sidCookie symbol : Option String) (stake : Option Int) (reqId caller : Nat)
    (e : String) (cid : Nat) (m : Meta)
    (hsess : sessionOk store sidCookie = true)
    (hparams : (truthyStr symbol && truthyInt stake) = true)
    (hfound : findBuy (sidCookie.getD "") reg = some (cid, m)) :
    apiBuy store reg sidCookie symbol stake reqId caller (some e) =
      { registry := updateReg reg cid
          { m with pendingRequests :=
              delPending (setPending m.pendingRequests reqId caller) reqId },
        sent := none, response := some (HttpResp.fail 500 e) }
    ∧ lookupPending (delPending (setPending m.pendingRequests reqId caller) reqId) reqId
        = none
    ∧ isOkResultResp (some (HttpResp.fail 500 e)) = false := by
  refine ⟨?_, lookupPending_delPending _ _, rfl⟩
  simp [apiBuy, hsess, hparams, hfound, buyOn]

/-- Witness for C9 amended: a failing write on the authorized S1 connection
    yields the direct 500 response and an empty pending table. -/
theorem send_failure_amended_witness :
    apiBuy store1 [(0, mAuth)] (some "S1") (some "R_100") (some 10) 50 3
        (some "socket closed") =
      { registry := [(0, { mAuth with pendingRequests := [] })], sent := none,
        response := some (HttpResp.fail 500 "socket closed") }
    ∧ lookupPending (delPending (setPending ([] : List (Nat × Nat)) 50 3) 50) 50 = none
    ∧ isOkResultResp (some (HttpResp.fail 500 "socket closed")) = false :=
  send_failure_amended store1 [(0, mAuth)] (some "S1") (some "R_100") (some 10) 50 3
    "socket closed" 0 mAuth (by decide) (by decide) (by decide)

/-- Claim C8 exposes a code bug: the request identifier is Date.now(), so two
    buy submissions handled in the same millisecond share the clock value
    (111 here) as key; the first submission registers the resolver of caller
    1 under key 111, and the second overwrites that same key with the
    resolver of caller 2, displacing caller 1, whose HTTP request can then
    never be resolved. The spec requires pending_requests keys to be unique,
    with registration never displacing an existing pending resolver. -/
theorem same_millisecond_reqid_overwrites :
    (apiBuy store1 [(0, mAuth)] (some "S1") (some "R_100") (some 10) 111 1
        none).registry = [(0, { mAuth with pendingRequests := [(111, 1)] })]
    ∧ (apiBuy store1 [(0, { mAuth with pendingRequests := [(111, 1)] })]
        (some "S1") (some "R_100") (some 10) 111 2 none).registry =
        [(0, { mAuth with pendingRequests := [(111, 2)] })] :=
  ⟨rfl, rfl⟩

/-- Claim C10: several live connections may be registered under the same
    session id; POST /api/buy writes the buy payload on the socket of the
    first registered connection with that session id, a non-null upstream
    socket and the authorized flag, and GET /me reports the account of the
    first registered connection for the session with account info — both
    selections follow registry insertion order, with no uniqueness
    enforced. -/
theorem same_session_selection :
    (∀ (store : List (String × String)) (pre rest : Registry) (c1 : Nat) (m1 : Meta)
        (sidCookie symbol : Option String) (stake : Option Int) (reqId caller : Nat),
       sessionOk store sidCookie = true →
       (truthyStr symbol && truthyInt stake) = true →
       (∀ p ∈ pre, qualBuy (sidCookie.getD "") p.2 = false) →
       qualBuy (sidCookie.getD "") m1 = true →
       (apiBuy store (pre ++ (c1, m1) :: rest) sidCookie symbol stake reqId caller
           none).sent = some (c1, UpReq.buy (stake.getD 0) (symbol.getD "")))
    ∧ (∀ (store : List (String × String)) (pre rest : Registry) (c1 : Nat) (m1 : Meta)
        (sidCookie : Option String),
       sessionOk store sidCookie = true →
       (∀ p ∈ pre, qualMe (sidCookie.getD "") p.2 = false) →
       qualMe (sidCookie.getD "") m1 = true →
       apiMe store (pre ++ (c1, m1) :: rest) sidCookie = HttpResp.meOk m1.accountInfo) := by
  constructor
  · intro store pre rest c1 m1 sidCookie symbol stake reqId caller hsess hparams hpre h1
    simp [apiBuy, hsess, hparams, findBuy_first _ _ _ _ _ hpre h1, buyOn]
  · intro store pre rest c1 m1 sidCookie hsess hpre h1
    simp [apiMe, hsess, findMe_first _ _ _ _ _ hpre h1]

/-- Witness for C10: two authorized connections registered for S1 in order;
    the buy payload goes to the first and GET /me reports the account of the
    first. -/
theorem same_session_selection_witness :
    (apiBuy store1 [(0, mAuth), (1, mAuth2)] (some "S1") (some "R_100")
        (some 10) 7 4 none).sent = some (0, UpReq.buy 10 "R_100")
    ∧ apiMe store1 [(0, mAuth), (1, mAuth2)] (some "S1") =
        HttpResp.meOk (some { loginid := "CR1", currency := "USD", balance := 100 }) :=
  ⟨same_session_selection.1 store1 [] [(1, mAuth2)] 0 mAuth (some "S1")
      (some "R_100") (some 10) 7 4 (by decide) (by decide) (by decide) (by decide),
   same_session_selection.2 store1 [] [(1, mAuth2)] 0 mAuth (some "S1")
      (by decide) (by decide) (by decide)⟩

end Main

end DerivProxy
